import Mathlib

/-!
Shallow embedding of the VVM-C interface contract (src/vvm.h) and proofs of
the testable properties stated in its specification.

The repository consists of the single header vvm.h: the data model (value
types, vvm_message, vvm_result), the Host callback table, the status-code
taxonomy, and the resource-lifecycle contract attached to results.  The
enums, struct layouts and documented invariants below are translated
directly from that header; behavioural obligations of a conforming Engine
or Host (which the header only documents, since no implementation is part
of the repository) are modelled from the specification and marked as such
in their doc comments.
-/

/-- The execution status code, from enum vvm_status_code (vvm.h lines 143-170). -/
inductive vvm_status_code where
  | VVM_SUCCESS
  | VVM_FAILURE
  | VVM_OUT_OF_GAS
  | VVM_BAD_INSTRUCTION
  | VVM_BAD_JUMP_DESTINATION
  | VVM_STACK_OVERFLOW
  | VVM_STACK_UNDERFLOW
  | VVM_REVERT
  | VVM_STATIC_MODE_ERROR
  | VVM_REJECTED
  | VVM_INTERNAL_ERROR
deriving DecidableEq, Repr, Fintype

/-- The integer value each enumerator carries in the C enum (vvm.h lines 143-170):
the execution-outcome codes are 0..8 in declaration order, VVM_REJECTED is -1
and VVM_INTERNAL_ERROR is -2. -/
def vvm_status_code.toInt : vvm_status_code → Int
  | .VVM_SUCCESS => 0
  | .VVM_FAILURE => 1
  | .VVM_OUT_OF_GAS => 2
  | .VVM_BAD_INSTRUCTION => 3
  | .VVM_BAD_JUMP_DESTINATION => 4
  | .VVM_STACK_OVERFLOW => 5
  | .VVM_STACK_UNDERFLOW => 6
  | .VVM_REVERT => 7
  | .VVM_STATIC_MODE_ERROR => 8
  | .VVM_REJECTED => -1
  | .VVM_INTERNAL_ERROR => -2

/-- The list of all enumerators of vvm_status_code, in declaration order. -/
def vvm_status_code.enumerators : List vvm_status_code :=
  [.VVM_SUCCESS, .VVM_FAILURE, .VVM_OUT_OF_GAS, .VVM_BAD_INSTRUCTION,
   .VVM_BAD_JUMP_DESTINATION, .VVM_STACK_OVERFLOW, .VVM_STACK_UNDERFLOW,
   .VVM_REVERT, .VVM_STATIC_MODE_ERROR, .VVM_REJECTED, .VVM_INTERNAL_ERROR]

/-- The kind of call-like instruction, from enum vvm_call_kind (vvm.h lines 57-62). -/
inductive vvm_call_kind where
  | VVM_CALL
  | VVM_DELEGATECALL
  | VVM_CALLCODE
  | VVM_CREATE
deriving DecidableEq, Repr

/-- VVM_STATIC, the only flag bit of enum vvm_flags (vvm.h lines 65-67). -/
def VVM_STATIC : Nat := 1

/-- The VVM code execution result, from struct vvm_result (vvm.h lines 185-248).
Pointers are modelled as Option (a NULL pointer is none); the output buffer and
the byte arrays are lists of byte values; the release function pointer is
modelled by its presence (Option Unit). -/
structure vvm_result where
  status_code : vvm_status_code
  gas_left : Int
  output_data : Option (List Nat)
  output_size : Nat
  release : Option Unit
  create_address : List Nat
  padding : List Nat
deriving DecidableEq

/-- Documented invariant of vvm_result.gas_left (vvm.h lines 189-193): if the
status code is not VVM_SUCCESS nor VVM_REVERT the value MUST be 0. -/
def gasLeftOk (r : vvm_result) : Prop :=
  (r.status_code ≠ .VVM_SUCCESS ∧ r.status_code ≠ .VVM_REVERT) → r.gas_left = 0

/-- Documented invariant of vvm_result.output_data (vvm.h lines 195-198): the
output contains data coming from the RETURN opcode (iff the status code is
VVM_SUCCESS) or from the REVERT opcode, so a present output buffer entails a
status of VVM_SUCCESS or VVM_REVERT. -/
def outputPresenceOk (r : vvm_result) : Prop :=
  r.output_data ≠ none → (r.status_code = .VVM_SUCCESS ∨ r.status_code = .VVM_REVERT)

/-- Documented invariant of vvm_result.output_size (vvm.h lines 206-209): if
output_data is NULL this MUST be 0. -/
def outputSizeOk (r : vvm_result) : Prop :=
  r.output_data = none → r.output_size = 0

/-- A vvm_result obeying the invariants documented in vvm.h. -/
def ResultWF (r : vvm_result) : Prop :=
  gasLeftOk r ∧ outputPresenceOk r ∧ outputSizeOk r

/-- A concrete well-formed failure result used as a witness input. -/
def exampleFailureResult : vvm_result :=
  { status_code := .VVM_FAILURE
    gas_left := 0
    output_data := none
    output_size := 0
    release := none
    create_address := List.replicate 20 0
    padding := List.replicate 4 0 }

/-- Claim C1: for every well-formed Result, a status code that is neither
VVM_SUCCESS nor VVM_REVERT forces gas_left = 0 and an absent output (NULL
output pointer and output size 0); and whenever the output pointer is absent
the output size is 0. -/
theorem c1_result_invariant (r : vvm_result) (h : ResultWF r) :
    ((r.status_code ≠ .VVM_SUCCESS ∧ r.status_code ≠ .VVM_REVERT) →
      r.gas_left = 0 ∧ r.output_data = none ∧ r.output_size = 0) ∧
    (r.output_data = none → r.output_size = 0) := by
  obtain ⟨hgas, hpres, hsize⟩ := h
  refine ⟨fun hst => ?_, hsize⟩
  have hout : r.output_data = none := by
    by_contra hne
    rcases hpres hne with hs | hs
    · exact hst.1 hs
    · exact hst.2 hs
  exact ⟨hgas hst, hout, hsize hout⟩

/-- Witness for C1 at a concrete well-formed failure result. -/
theorem c1_result_invariant_witness :
    ResultWF exampleFailureResult ∧
    (((exampleFailureResult.status_code ≠ .VVM_SUCCESS ∧
        exampleFailureResult.status_code ≠ .VVM_REVERT) →
      exampleFailureResult.gas_left = 0 ∧ exampleFailureResult.output_data = none ∧
        exampleFailureResult.output_size = 0) ∧
    (exampleFailureResult.output_data = none → exampleFailureResult.output_size = 0)) := by
  have hwf : ResultWF exampleFailureResult := by
    refine ⟨fun _ => rfl, fun hne => absurd rfl hne, fun _ => rfl⟩
  exact ⟨hwf, c1_result_invariant exampleFailureResult hwf⟩

/-- Claim C10: the status-code type partitions by sign: VVM_REJECTED = -1 and
VVM_INTERNAL_ERROR = -2 are the only negative values, and the nine
execution-outcome codes are pairwise distinct non-negative values in 0..8. -/
theorem c10_status_sign_partition :
    vvm_status_code.VVM_REJECTED.toInt = -1 ∧
    vvm_status_code.VVM_INTERNAL_ERROR.toInt = -2 ∧
    (∀ c : vvm_status_code,
      (c.toInt < 0 ↔ (c = .VVM_REJECTED ∨ c = .VVM_INTERNAL_ERROR))) ∧
    (∀ c : vvm_status_code,
      ((0 ≤ c.toInt ∧ c.toInt ≤ 8) ↔ ¬(c = .VVM_REJECTED ∨ c = .VVM_INTERNAL_ERROR))) ∧
    (vvm_status_code.enumerators.map vvm_status_code.toInt).Nodup := by
  decide

/-- Tags for the C parameter types occurring in the callback typedefs of vvm.h. -/
inductive cparam where
  | uint256be_out
  | txcontext_out
  | result_out
  | code_out
  | context_ptr
  | address_ptr
  | uint256be_ptr
  | message_ptr
  | bytes_ptr
  | topics_arr
  | size_val
  | int64_val
deriving DecidableEq, Repr

/-- The ten operations of struct vvm_context_fn_table (vvm.h lines 402-413),
identified by field name. -/
inductive hostOp where
  | account_exists
  | get_storage
  | set_storage
  | get_balance
  | get_code
  | selfdestruct
  | call
  | get_tx_context
  | get_block_hash
  | emit_log
deriving DecidableEq, Repr, Fintype

/-- The parameter list of each callback typedef, in the exact order it is
declared in vvm.h (vvm_account_exists_fn line 292, vvm_get_storage_fn line 304,
vvm_set_storage_fn line 318, vvm_get_balance_fn line 331, vvm_get_code_fn
line 347, vvm_selfdestruct_fn line 361, vvm_emit_log_fn line 377, vvm_call_fn
line 392, vvm_get_tx_context_fn line 126, vvm_get_block_hash_fn line 138). -/
def hostOpParams : hostOp → List cparam
  | .account_exists => [.context_ptr, .address_ptr]
  | .get_storage => [.uint256be_out, .context_ptr, .address_ptr, .uint256be_ptr]
  | .set_storage => [.context_ptr, .address_ptr, .uint256be_ptr, .uint256be_ptr]
  | .get_balance => [.uint256be_out, .context_ptr, .address_ptr]
  | .get_code => [.code_out, .context_ptr, .address_ptr]
  | .selfdestruct => [.context_ptr, .address_ptr, .address_ptr]
  | .call => [.result_out, .context_ptr, .message_ptr]
  | .get_tx_context => [.txcontext_out, .context_ptr]
  | .get_block_hash => [.uint256be_out, .context_ptr, .int64_val]
  | .emit_log => [.context_ptr, .address_ptr, .bytes_ptr, .size_val, .topics_arr, .size_val]

/-- The fields of struct vvm_context_fn_table in declaration order
(vvm.h lines 402-413). -/
def vvm_context_fn_table : List hostOp :=
  [.account_exists, .get_storage, .set_storage, .get_balance, .get_code,
   .selfdestruct, .call, .get_tx_context, .get_block_hash, .emit_log]

/-- A parameter that is an out-pointer through which the callback returns its
result (the result slot the VVM supplies for the Host to fill in). -/
def cparam.isOut : cparam → Bool
  | .uint256be_out => true
  | .txcontext_out => true
  | .result_out => true
  | .code_out => true
  | _ => false

/-- Counterexample to claim C5: the table does have exactly ten operations, but
not every callback takes the Context as its first argument: vvm_get_storage_fn
(like the five other callbacks that return through an out-pointer) takes the
result out-pointer first and the Context second. -/
theorem c5_context_first_counterexample :
    vvm_context_fn_table.length = 10 ∧
    (hostOpParams .get_storage).head? = some cparam.uint256be_out ∧
    ¬ (∀ op : hostOp, (hostOpParams op).head? = some cparam.context_ptr) := by
  decide

/-- Claim C5 (amended): the callback table contains exactly ten distinct
operations, each of which is a field of the table; every callback takes the
opaque Context as its first argument apart from a leading result out-pointer,
i.e. the first parameter after dropping out-parameters is the Context pointer
(the four callbacks without an out-parameter take the Context literally first,
the six with one take it second). -/
theorem c5_ten_ops_context_first :
    vvm_context_fn_table.length = 10 ∧
    vvm_context_fn_table.Nodup ∧
    (∀ op : hostOp, op ∈ vvm_context_fn_table) ∧
    (∀ op : hostOp,
      ((hostOpParams op).dropWhile cparam.isOut).head? = some cparam.context_ptr) := by
  decide

/-- Field names of struct vvm_result, in declaration order (vvm.h lines 185-248). -/
inductive resultField where
  | status_code
  | gas_left
  | output_data
  | output_size
  | release
  | create_address
  | padding
deriving DecidableEq, Repr

/-- A C struct member: its name together with the size and alignment of its
type under the LP64 data model the header targets (enum = int: 4 bytes;
int64_t, pointers, size_t: 8 bytes; byte arrays: their length, alignment 1). -/
structure cfield where
  fname : resultField
  size : Nat
  align : Nat
deriving DecidableEq, Repr

/-- Round an offset up to the next multiple of the alignment. -/
def alignUp (off a : Nat) : Nat :=
  if a = 0 then off else ((off + a - 1) / a) * a

/-- Standard C layout: place each member at the smallest offset at or after the
current one that satisfies its alignment; return the offsets and the offset
past the last member. -/
def layoutMembers : List cfield → Nat → List (resultField × Nat) × Nat
  | [], off => ([], off)
  | f :: rest, off =>
    let o := alignUp off f.align
    let (tl, fin) := layoutMembers rest (o + f.size)
    ((f.fname, o) :: tl, fin)

/-- The offset of each member of a C struct. -/
def structOffsets (fs : List cfield) : List (resultField × Nat) :=
  (layoutMembers fs 0).1

/-- sizeof of a C struct: the offset past the last member rounded up to the
struct alignment (the maximum member alignment). -/
def structSize (fs : List cfield) : Nat :=
  alignUp (layoutMembers fs 0).2 (fs.foldr (fun f m => max f.align m) 1)

/-- The members of struct vvm_result in declaration order (vvm.h lines 185-248):
enum vvm_status_code status_code; int64_t gas_left; const uint8_t* output_data;
size_t output_size; vvm_release_result_fn release; struct vvm_address
create_address (20 bytes of uint8_t, alignment 1); uint8_t padding[4]. -/
def vvm_result_members : List cfield :=
  [⟨.status_code, 4, 4⟩, ⟨.gas_left, 8, 8⟩, ⟨.output_data, 8, 8⟩,
   ⟨.output_size, 8, 8⟩, ⟨.release, 8, 8⟩, ⟨.create_address, 20, 1⟩,
   ⟨.padding, 4, 1⟩]

/-- Claim C6: struct vvm_result has the fixed member order status_code,
gas_left, output_data, output_size, release, create_address, padding[4]; its
total size is exactly 64 bytes; the 4 reserved padding bytes sit immediately
after the 20-byte create_address (offsets 60 and 40), so together they form
the contiguous 24-byte auxiliary region filling the struct to its end. -/
theorem c6_result_layout :
    vvm_result_members.map cfield.fname =
      [.status_code, .gas_left, .output_data, .output_size, .release,
       .create_address, .padding] ∧
    structSize vvm_result_members = 64 ∧
    structOffsets vvm_result_members =
      [(.status_code, 0), (.gas_left, 8), (.output_data, 16), (.output_size, 24),
       (.release, 32), (.create_address, 40), (.padding, 60)] ∧
    (60 = 40 + 20 ∧ 64 = 40 + 24) := by
  decide

/-- Reading the vvm_result "optional data" through union vvm_result_optional_data
(vvm.h lines 263-281): vvm_get_optional_data reinterprets the address of
create_address as 24 bytes, which by the layout of the struct are the 20 bytes
of create_address followed by the 4 bytes of padding. -/
def readOptionalData (r : vvm_result) : List Nat :=
  r.create_address ++ r.padding

/-- Writing 24 bytes of "optional data" through the pointer returned by
vvm_get_optional_data: the first 20 bytes land in create_address and the
remaining bytes in padding. -/
def writeOptionalData (r : vvm_result) (p : List Nat) : vvm_result :=
  { r with create_address := p.take 20, padding := p.drop 20 }

/-- Storing a created address into vvm_result.create_address (the 20-byte field
written by a successful CREATE, vvm.h lines 232-236). -/
def writeCreateAddress (r : vvm_result) (a : List Nat) : vvm_result :=
  { r with create_address := a }

/-- Claim C7: writing a 24-byte payload into the auxiliary region and reading
it back through the optional-data union yields exactly the bytes written, and
first 20 of the payload land in create_address and the last 4 in the reserved
bytes; subsequently writing a created address overwrites exactly the first 20
bytes, leaving the last 4 payload bytes intact. -/
theorem c7_optional_data_roundtrip (r : vvm_result) (p a : List Nat)
    (hp : p.length = 24) (ha : a.length = 20) :
    readOptionalData (writeOptionalData r p) = p ∧
    (writeOptionalData r p).create_address = p.take 20 ∧
    (writeOptionalData r p).create_address.length = 20 ∧
    (writeOptionalData r p).padding = p.drop 20 ∧
    (writeOptionalData r p).padding.length = 4 ∧
    readOptionalData (writeCreateAddress (writeOptionalData r p) a) =
      a ++ p.drop 20 ∧
    (a ++ p.drop 20).length = 24 := by
  refine ⟨List.take_append_drop 20 p, rfl, ?_, rfl, ?_, rfl, ?_⟩
  · simp [writeOptionalData, List.length_take, hp]
  · simp [writeOptionalData, List.length_drop, hp]
  · simp [List.length_append, List.length_drop, hp, ha]

/-- A concrete 24-byte payload for the C7 witness. -/
def examplePayload : List Nat := List.range 24

/-- A concrete 20-byte address for the C7 witness. -/
def exampleAddress : List Nat := List.replicate 20 7

/-- Witness for C7 at a concrete result, payload and address. -/
theorem c7_optional_data_roundtrip_witness :
    examplePayload.length = 24 ∧ exampleAddress.length = 20 ∧
    readOptionalData (writeOptionalData exampleFailureResult examplePayload) =
      examplePayload := by
  refine ⟨by decide, by decide, ?_⟩
  exact (c7_optional_data_roundtrip exampleFailureResult examplePayload
    exampleAddress (by decide) (by decide)).1

/-- The message describing an VVM call, from struct vvm_message (vvm.h lines
71-101).  Addresses and hashes are abstracted to Nat; the input pointer is an
Option; flags is the uint32 bitmask whose only valid bit is VVM_STATIC. -/
structure vvm_message where
  destination : Nat
  sender : Nat
  value : Nat
  input_data : Option (List Nat)
  input_size : Nat
  code_hash : Nat
  gas : Int
  depth : Int
  kind : vvm_call_kind
  flags : Nat
deriving DecidableEq

/-- The world state held by the Host and mutated only through callbacks:
recorded storage writes, emitted logs, and registered self-destructs. -/
structure HostState where
  storage : List (Nat × Nat × Nat)
  logs : List (Nat × List Nat)
  selfdestructs : List (Nat × Nat)
deriving DecidableEq

/-- A callback request an Engine may issue during one execution, one for each
operation of the callback table (nested_call records whether the nested
message carries the VVM_STATIC flag). -/
inductive EngineOp where
  | account_exists (addr : Nat)
  | get_storage (addr key : Nat)
  | set_storage (addr key value : Nat)
  | get_balance (addr : Nat)
  | get_code (addr : Nat)
  | selfdestruct (addr beneficiary : Nat)
  | nested_call (staticFlag : Bool) (value : Nat)
  | get_tx_context
  | get_block_hash (number : Nat)
  | emit_log (addr : Nat) (data : List Nat)
deriving DecidableEq

/-- The operations a static execution must refuse (vvm.h line 152: operations
restricted in static mode): writing storage, self-destructing, emitting logs,
and nested calls that do not themselves carry the VVM_STATIC flag. -/
def staticForbidden : EngineOp → Bool
  | .set_storage _ _ _ => true
  | .selfdestruct _ _ => true
  | .emit_log _ _ => true
  | .nested_call staticFlag _ => !staticFlag
  | _ => false

/-- The effect of a callback on the Host state: set_storage, selfdestruct and
emit_log record a mutation, every other operation is a pure query. -/
def applyOp (s : HostState) : EngineOp → HostState
  | .set_storage a k v => { s with storage := (a, k, v) :: s.storage }
  | .selfdestruct a b => { s with selfdestructs := (a, b) :: s.selfdestructs }
  | .emit_log a d => { s with logs := (a, d) :: s.logs }
  | _ => s

/-- Modelled from the spec: the Engine's callback-dispatch loop, which is not
part of the repository (the header only declares the interface).  The Engine
processes its pending callback requests in order; under static mode it checks
each request first and terminates with VVM_STATIC_MODE_ERROR at the first
forbidden one, before invoking it; otherwise it invokes the callback and
applies its effect.  Returns the final Host state, the list of callbacks
actually invoked, and the status. -/
def runOps (staticMode : Bool) :
    List EngineOp → HostState → List EngineOp →
      HostState × List EngineOp × vvm_status_code
  | [], s, invoked => (s, invoked.reverse, .VVM_SUCCESS)
  | op :: rest, s, invoked =>
    if staticMode && staticForbidden op then
      (s, invoked.reverse, .VVM_STATIC_MODE_ERROR)
    else
      runOps staticMode rest (applyOp s op) (op :: invoked)

/-- Whether a flags bitmask has the VVM_STATIC bit set. -/
def staticFlagSet (flags : Nat) : Bool :=
  flags &&& VVM_STATIC != 0

/-- Modelled from the spec: one execution of a message, dispatching the
Engine's callback requests under the static mode dictated by message.flags. -/
def executeOps (m : vvm_message) (ops : List EngineOp) (s : HostState) :
    HostState × List EngineOp × vvm_status_code :=
  runOps (staticFlagSet m.flags) ops s []

theorem applyOp_of_not_forbidden (s : HostState) (op : EngineOp)
    (h : staticForbidden op = false) : applyOp s op = s := by
  cases op <;> simp [staticForbidden] at h <;> rfl

theorem runOps_static_state (ops : List EngineOp) :
    ∀ (s : HostState) (inv : List EngineOp), (runOps true ops s inv).1 = s := by
  induction ops with
  | nil => intro s inv; rfl
  | cons op rest ih =>
    intro s inv
    by_cases h : staticForbidden op = true
    · simp [runOps, h]
    · have h0 : staticForbidden op = false := by simpa using h
      simp [runOps, h0, applyOp_of_not_forbidden s op h0, ih]

theorem runOps_static_invoked (ops : List EngineOp) :
    ∀ (s : HostState) (inv : List EngineOp),
      ∀ op ∈ (runOps true ops s inv).2.1, op ∈ inv ∨ staticForbidden op = false := by
  induction ops with
  | nil =>
    intro s inv op hmem
    simp only [runOps, List.mem_reverse] at hmem
    exact Or.inl hmem
  | cons hd rest ih =>
    intro s inv op hmem
    by_cases h : staticForbidden hd = true
    · simp only [runOps, h, Bool.true_and, if_true, List.mem_reverse] at hmem
      exact Or.inl hmem
    · have h0 : staticForbidden hd = false := by simpa using h
      simp only [runOps, h0, Bool.true_and, Bool.false_eq_true, if_false] at hmem
      rcases ih (applyOp s hd) (hd :: inv) op hmem with hin | hforb
      · rcases List.mem_cons.mp hin with heq | hin2
        · exact Or.inr (heq ▸ h0)
        · exact Or.inl hin2
      · exact Or.inr hforb

theorem runOps_static_status (ops : List EngineOp) :
    ∀ (s : HostState) (inv : List EngineOp),
      (∃ op ∈ ops, staticForbidden op = true) →
      (runOps true ops s inv).2.2 = .VVM_STATIC_MODE_ERROR := by
  induction ops with
  | nil => intro s inv h; simp at h
  | cons hd rest ih =>
    intro s inv h
    by_cases hhd : staticForbidden hd = true
    · simp [runOps, hhd]
    · have h0 : staticForbidden hd = false := by simpa using hhd
      rcases h with ⟨op, hmem, hforb⟩
      rcases List.mem_cons.mp hmem with heq | hmem2
      · rw [heq] at hforb; rw [h0] at hforb; cases hforb
      · simp only [runOps, h0, Bool.true_and, Bool.false_eq_true, if_false]
        exact ih (applyOp s hd) (hd :: inv) ⟨op, hmem2, hforb⟩

/-- Claim C2: executing a Message whose flags contain the VVM_STATIC bit, if
the Engine attempts any state-mutating operation (set_storage, selfdestruct,
emit_log, or a non-static nested call), the execution fails with
VVM_STATIC_MODE_ERROR, no state-mutating callback is ever invoked, and the
Host state is left entirely unchanged. -/
theorem c2_static_mode (m : vvm_message) (ops : List EngineOp) (s : HostState)
    (hstatic : staticFlagSet m.flags = true)
    (hattempt : ∃ op ∈ ops, staticForbidden op = true) :
    (executeOps m ops s).2.2 = .VVM_STATIC_MODE_ERROR ∧
    (executeOps m ops s).1 = s ∧
    (∀ op ∈ (executeOps m ops s).2.1, staticForbidden op = false) := by
  unfold executeOps
  rw [hstatic]
  refine ⟨runOps_static_status ops s [] hattempt, runOps_static_state ops s [], ?_⟩
  intro op hmem
  rcases runOps_static_invoked ops s [] op hmem with hin | hforb
  · cases hin
  · exact hforb

/-- A concrete static message for the C2 witness. -/
def exampleStaticMessage : vvm_message :=
  { destination := 1, sender := 2, value := 0, input_data := none,
    input_size := 0, code_hash := 0, gas := 100000, depth := 0,
    kind := .VVM_CALL, flags := VVM_STATIC }

/-- A concrete op list for the C2 witness: a read followed by an attempted
storage write. -/
def exampleStaticOps : List EngineOp :=
  [.get_storage 1 0, .set_storage 1 0 42]

/-- The empty Host state. -/
def emptyHostState : HostState :=
  { storage := [], logs := [], selfdestructs := [] }

/-- Witness for C2: the concrete static execution attempting a storage write
ends with VVM_STATIC_MODE_ERROR and an unchanged state. -/
theorem c2_static_mode_witness :
    staticFlagSet exampleStaticMessage.flags = true ∧
    (∃ op ∈ exampleStaticOps, staticForbidden op = true) ∧
    (executeOps exampleStaticMessage exampleStaticOps emptyHostState).2.2 =
      .VVM_STATIC_MODE_ERROR ∧
    (executeOps exampleStaticMessage exampleStaticOps emptyHostState).1 =
      emptyHostState := by
  have h := c2_static_mode exampleStaticMessage exampleStaticOps emptyHostState
    (by decide) (by decide)
  exact ⟨by decide, by decide, h.1, h.2.1⟩

/-- The Result an execute wrapper reports for an unexpected internal Engine
fault: status VVM_INTERNAL_ERROR, no gas left, no output, no release
obligation. -/
def internalErrorResult : vvm_result :=
  { status_code := .VVM_INTERNAL_ERROR
    gas_left := 0
    output_data := none
    output_size := 0
    release := none
    create_address := List.replicate 20 0
    padding := List.replicate 4 0 }

/-- Modelled from the spec: the body of a conforming Engine's vvm_execute_fn,
which is not part of the repository (the header only declares the function
type, vvm.h lines 481-486).  The Engine's internal computation may fault
(Except.error); the execute entry point catches every such fault and converts
it into a Result with status VVM_INTERNAL_ERROR, so that execute is a total
function into vvm_result and never propagates an exception. -/
def vvm_execute (body : Except Unit vvm_result) : vvm_result :=
  match body with
  | .ok r => r
  | .error _ => internalErrorResult

/-- Claim C3: execute always returns a Result (it is a total function into
vvm_result), and every internal Engine fault is reported as a Result with
status VVM_INTERNAL_ERROR instead of being propagated; a non-faulting body's
Result is returned unchanged. -/
theorem c3_execute_never_raises (body : Except Unit vvm_result) :
    (∃ r : vvm_result, vvm_execute body = r) ∧
    (∀ e, body = .error e →
      vvm_execute body = internalErrorResult ∧
      (vvm_execute body).status_code = .VVM_INTERNAL_ERROR) ∧
    (∀ r, body = .ok r → vvm_execute body = r) := by
  refine ⟨⟨vvm_execute body, rfl⟩, ?_, ?_⟩
  · intro e he
    subst he
    exact ⟨rfl, rfl⟩
  · intro r hr
    subst hr
    rfl

/-- Witness for C3: a faulting body yields VVM_INTERNAL_ERROR; an ok body is
returned unchanged. -/
theorem c3_execute_never_raises_witness :
    (vvm_execute (Except.error ()) = internalErrorResult ∧
      (vvm_execute (Except.error ())).status_code = .VVM_INTERNAL_ERROR) ∧
    vvm_execute (Except.ok exampleFailureResult) = exampleFailureResult := by
  exact ⟨(c3_execute_never_raises (Except.error ())).2.1 () rfl,
    (c3_execute_never_raises (Except.ok exampleFailureResult)).2.2
      exampleFailureResult rfl⟩

/-- An action the receiver of a Result may perform on it. -/
inductive RecvAction where
  | readResult
  | releaseResult
deriving DecidableEq, Repr

/-- The lifecycle state of a received Result: alive until released, dead
afterwards. -/
inductive LifeState where
  | alive
  | dead
deriving DecidableEq, Repr, BEq

/-- Modelled from the spec: the receiver-side lifecycle protocol of a Result
(vvm.h lines 211-230), which constrains Host/Engine code that is not part of
the repository.  While the Result is alive it may be read; invoking the
attached release function (legal only when the release member is present)
makes the Result dead; a dead Result admits no further read or release; a
release invocation on a Result without a release member is a protocol
violation (none). -/
def recvStep (hasRelease : Bool) : LifeState → RecvAction → Option LifeState
  | .alive, .readResult => some .alive
  | .alive, .releaseResult => if hasRelease then some .dead else none
  | .dead, _ => none

/-- Run a receiver trace from a lifecycle state; none marks the first protocol
violation. -/
def runRecv (hasRelease : Bool) : LifeState → List RecvAction → Option LifeState
  | s, [] => some s
  | s, a :: rest =>
    match recvStep hasRelease s a with
    | none => none
    | some s2 => runRecv hasRelease s2 rest

/-- A conforming complete receiver trace: no protocol violation, and when the
release member is present the trace must discharge the obligation, ending with
the Result dead; when it is absent any violation-free trace is complete (no
cleanup is required). -/
def conformingRecv (hasRelease : Bool) (tr : List RecvAction) : Bool :=
  if hasRelease then decide (runRecv hasRelease .alive tr = some .dead)
  else (runRecv hasRelease .alive tr).isSome

theorem runRecv_dead (hasRelease : Bool) (tr : List RecvAction) (s : LifeState)
    (h : runRecv hasRelease .dead tr = some s) : tr = [] ∧ s = .dead := by
  cases tr with
  | nil => exact ⟨rfl, by cases h; rfl⟩
  | cons a rest => simp [runRecv, recvStep] at h

theorem runRecv_release_once (tr : List RecvAction) :
    runRecv true .alive tr = some .dead →
    ∃ pre, tr = pre ++ [RecvAction.releaseResult] ∧
      RecvAction.releaseResult ∉ pre := by
  induction tr with
  | nil => intro h; cases h
  | cons a rest ih =>
    intro h
    cases a with
    | readResult =>
      simp only [runRecv, recvStep] at h
      obtain ⟨pre, hpre, hnot⟩ := ih h
      refine ⟨.readResult :: pre, by rw [hpre]; rfl, ?_⟩
      intro hmem
      rcases List.mem_cons.mp hmem with heq | hmem2
      · cases heq
      · exact hnot hmem2
    | releaseResult =>
      simp only [runRecv, recvStep, if_pos] at h
      obtain ⟨hnil, _⟩ := runRecv_dead true rest .dead h
      exact ⟨[], by rw [hnil]; rfl, by simp⟩

theorem runRecv_no_release (tr : List RecvAction) :
    ∀ s, runRecv false .alive tr = some s →
      RecvAction.releaseResult ∉ tr ∧ s = .alive := by
  induction tr with
  | nil => intro s h; exact ⟨by simp, by cases h; rfl⟩
  | cons a rest ih =>
    intro s h
    cases a with
    | readResult =>
      simp only [runRecv, recvStep] at h
      obtain ⟨hnot, hs⟩ := ih s h
      exact ⟨by simp [hnot], hs⟩
    | releaseResult =>
      simp [runRecv, recvStep] at h

/-- Claim C4: for every conforming complete receiver trace, if the release
member is present the release function is invoked exactly once and it is the
last action of the trace (after it the Result is dead and is never read or
released again); if the release member is absent, the trace never invokes a
release and no cleanup is required. -/
theorem c4_release_exactly_once (tr : List RecvAction) :
    (conformingRecv true tr = true →
      ∃ pre, tr = pre ++ [RecvAction.releaseResult] ∧
        RecvAction.releaseResult ∉ pre ∧
        tr.count RecvAction.releaseResult = 1) ∧
    (conformingRecv false tr = true →
      tr.count RecvAction.releaseResult = 0) := by
  constructor
  · intro h
    have hrun : runRecv true .alive tr = some .dead := by
      simpa [conformingRecv] using h
    obtain ⟨pre, hpre, hnot⟩ := runRecv_release_once tr hrun
    refine ⟨pre, hpre, hnot, ?_⟩
    rw [hpre, List.count_append]
    rw [List.count_eq_zero.mpr hnot]
    rfl
  · intro h
    have hrun : (runRecv false .alive tr).isSome := by
      simpa [conformingRecv] using h
    obtain ⟨s, hs⟩ := Option.isSome_iff_exists.mp hrun
    obtain ⟨hnot, _⟩ := runRecv_no_release tr s hs
    exact List.count_eq_zero.mpr hnot

/-- Witness for C4: the trace read-then-release conforms for a Result with a
release member and contains exactly one release, which is last; the trace of a
single read conforms for a Result without one and contains no release. -/
theorem c4_release_exactly_once_witness :
    conformingRecv true [RecvAction.readResult, RecvAction.releaseResult] = true ∧
    (∃ pre, [RecvAction.readResult, RecvAction.releaseResult] =
        pre ++ [RecvAction.releaseResult] ∧
      RecvAction.releaseResult ∉ pre ∧
      [RecvAction.readResult, RecvAction.releaseResult].count
        RecvAction.releaseResult = 1) ∧
    conformingRecv false [RecvAction.readResult] = true ∧
    [RecvAction.readResult].count RecvAction.releaseResult = 0 := by
  refine ⟨by decide, ?_, by decide, ?_⟩
  · exact (c4_release_exactly_once
      [RecvAction.readResult, RecvAction.releaseResult]).1 (by decide)
  · exact (c4_release_exactly_once [RecvAction.readResult]).2 (by decide)

/-- Modelled from the spec: the Engine's BLOCKHASH handling, which is not part
of the repository.  The get_block_hash callback documents that its number
argument must be a value between (and including) 0 and 255 (vvm.h lines
136-137), so a conforming Engine checks a requested number against that range
and invokes the callback (some number) only when it is in range; out of range
the Engine produces the zero hash itself and performs no invocation (none). -/
def engineBlockHashArg (number : Int) : Option Int :=
  if 0 ≤ number ∧ number ≤ 255 then some number else none

/-- The arguments of the get_block_hash invocations a conforming Engine
performs while serving a list of requested block numbers. -/
def blockHashInvocations (requests : List Int) : List Int :=
  requests.filterMap engineBlockHashArg

/-- Claim C8: every number a conforming Engine passes to the get_block_hash
callback lies in the inclusive range [0, 255]; the callback is never invoked
with a number outside this range. -/
theorem c8_block_hash_range (requests : List Int) (n : Int)
    (h : n ∈ blockHashInvocations requests) : 0 ≤ n ∧ n ≤ 255 := by
  obtain ⟨q, _, hq⟩ := List.mem_filterMap.mp h
  unfold engineBlockHashArg at hq
  by_cases hrange : 0 ≤ q ∧ q ≤ 255
  · rw [if_pos hrange] at hq
    cases hq
    exact hrange
  · rw [if_neg hrange] at hq
    cases hq

/-- The requested block numbers of a synthetic 300-block chain. -/
def chain300Requests : List Int :=
  (List.range 300).map Int.ofNat

/-- Witness for C8: on the synthetic 300-block chain, the invocation with
number 255 is in range (and, separately checkable, no request above 255 is
ever passed through). -/
theorem c8_block_hash_range_witness :
    (255 : Int) ∈ blockHashInvocations chain300Requests ∧
    (0 ≤ (255 : Int) ∧ (255 : Int) ≤ 255) := by
  have hmem : (255 : Int) ∈ blockHashInvocations chain300Requests := by decide
  exact ⟨hmem, c8_block_hash_range chain300Requests 255 hmem⟩

/-- Modelled from the spec: the value a Host's balance-transfer simulation
moves for a message.  The header states that for VVM_DELEGATECALL the value
param is ignored (vvm.h line 59), so no balance is transferred; every other
call kind transfers the message value. -/
def transferredValue (m : vvm_message) : Nat :=
  match m.kind with
  | .VVM_DELEGATECALL => 0
  | _ => m.value

/-- Modelled from the spec: applying the simulated balance transfer of a
message to a Host balance table: the transferred value moves from the sender
to the destination. -/
def applyTransfer (balances : Nat → Int) (m : vvm_message) : Nat → Int :=
  fun a =>
    balances a - (if a = m.sender then (transferredValue m : Int) else 0)
      + (if a = m.destination then (transferredValue m : Int) else 0)

/-- Claim C9: for a Message of kind VVM_DELEGATECALL the value field has no
effect: nothing is transferred, and two executions of the same Message
differing only in value produce identical balance outcomes. -/
theorem c9_delegatecall_ignores_value (m : vvm_message) (v1 v2 : Nat)
    (balances : Nat → Int) (hk : m.kind = .VVM_DELEGATECALL) :
    transferredValue { m with value := v1 } = 0 ∧
    applyTransfer balances { m with value := v1 } =
      applyTransfer balances { m with value := v2 } := by
  have hz : ∀ v : Nat, transferredValue { m with value := v } = 0 := by
    intro v
    unfold transferredValue
    simp only
    rw [hk]
  refine ⟨hz v1, ?_⟩
  funext a
  simp [applyTransfer, hz v1, hz v2]

/-- A concrete DELEGATECALL message for the C9 witness. -/
def exampleDelegatecallMessage : vvm_message :=
  { destination := 1, sender := 2, value := 5, input_data := none,
    input_size := 0, code_hash := 0, gas := 100000, depth := 0,
    kind := .VVM_DELEGATECALL, flags := 0 }

/-- A concrete balance table for the C9 witness. -/
def exampleBalances : Nat → Int :=
  fun a => if a = 2 then 1000 else 0

/-- Witness for C9 at a concrete DELEGATECALL message and two values. -/
theorem c9_delegatecall_ignores_value_witness :
    exampleDelegatecallMessage.kind = .VVM_DELEGATECALL ∧
    transferredValue { exampleDelegatecallMessage with value := 5 } = 0 ∧
    applyTransfer exampleBalances { exampleDelegatecallMessage with value := 5 } =
      applyTransfer exampleBalances { exampleDelegatecallMessage with value := 9 } := by
  have h := c9_delegatecall_ignores_value exampleDelegatecallMessage 5 9
    exampleBalances rfl
  exact ⟨rfl, h.1, h.2⟩
